import Mathlib

/-!
Shallow embedding of the Reservation and Approval Engine of a college
event booking web application (single-file `app.py`).

The embedding models the persistent entities (`Hall`, `Event`, `User`,
`Booking`) as Lean structures, the database as lists of rows inside an
`AppState`, and the engine's operations as pure functions over that
state.  External collaborators (QR/PDF artifact generation, the mail
transport) are modelled by an `ArtifactEnv` oracle: the engine only
observes whether the library is available and which handle (if any) a
generation attempt returns, mirroring the best-effort calls in the
source.  Timestamps are integers (only their order matters to the
engine).  String-valued status and role columns are kept as strings,
with the same literals as the source.
-/

namespace CEMS

/-- The `Hall` model (venue): optional capacity column, operational
status string (`"free"` or `"blocked"`). -/
structure Hall where
  id : Nat
  capacity : Option Int
  status : String
  deriving DecidableEq

/-- The `Event` model: owning hall and organizer, optional capacity
override, schedule, lifecycle status (`"pending"`, `"approved"`,
`"rejected"`), and the `requires_faculty_approval` flag. -/
structure Event where
  id : Nat
  hall_id : Nat
  organizer_id : Nat
  capacity : Option Int
  start_time : Int
  end_time : Int
  status : String
  requires_faculty_approval : Bool
  deriving DecidableEq

/-- The `User` model, reduced to the fields the engine reads. -/
structure User where
  id : Nat
  email : Option String
  role : String
  active : Bool
  deriving DecidableEq

/-- The `Booking` model: lifecycle status (`"pending"`, `"confirmed"`,
`"cancelled"`), the two independent approval flags, and the optional
artifact handles filled in by finalization. -/
structure Booking where
  id : Nat
  ticket_id : String
  user_id : Nat
  event_id : Nat
  status : String
  faculty_approved : Bool
  organizer_approved : Bool
  qr_path : Option String
  pdf_path : Option String
  deriving DecidableEq

/-- Oracle for the side-effecting collaborators consulted during
finalization: whether the `qrcode` library is importable, the handle the
QR generator returns (`none` models a failed/skipped generation), the
handle the PDF generator returns, and whether a mail transport is
configured. -/
structure ArtifactEnv where
  qrcodeAvailable : Bool
  qrResult : Option String
  pdfResult : Option String
  mailConfigured : Bool
  deriving DecidableEq

/-- `finalize_booking_if_ready` from the source: if the booking has
`faculty_approved` and `organizer_approved` both set and is not already
`confirmed`, set status to `confirmed`, store the QR handle when the
`qrcode` library is present (even a `None` result is assigned), store
the PDF handle only when one was produced, and report whether a ticket
email is dispatched (mail configured and the owner has an address).
Otherwise the booking is returned untouched and no email is sent. -/
def finalize_booking_if_ready (env : ArtifactEnv) (userEmail : Option String)
    (b : Booking) : Booking × Bool :=
  if b.faculty_approved && b.organizer_approved && b.status != "confirmed" then
    let b1 : Booking := { b with status := "confirmed" }
    let b2 : Booking :=
      if env.qrcodeAvailable then { b1 with qr_path := env.qrResult } else b1
    let b3 : Booking :=
      match env.pdfResult with
      | some p => { b2 with pdf_path := some p }
      | none => b2
    (b3, env.mailConfigured && userEmail.isSome)
  else
    (b, false)

/-- `seats_taken`: number of bookings on the event with status
`confirmed`. -/
def seats_taken (bookings : List Booking) (event_id : Nat) : Nat :=
  (bookings.filter (fun b => b.event_id == event_id && b.status == "confirmed")).length

/-- `seats_available`: effective capacity is the event's capacity when
set and positive, else the hall's capacity when the hall resolves and
its capacity is set and positive, else unbounded (`none`).  A bounded
result is `max 0 (effective - seats_taken)`. -/
def seats_available (bookings : List Booking) (ev : Event) (hall : Option Hall) :
    Option Int :=
  let event_cap : Option Int :=
    match ev.capacity with
    | some c => if 0 < c then some c else none
    | none => none
  let hall_cap : Option Int :=
    match hall with
    | some h =>
      match h.capacity with
      | some c => if 0 < c then some c else none
      | none => none
    | none => none
  match (match event_cap with | some c => some c | none => hall_cap) with
  | none => none
  | some c => some (max 0 (c - (seats_taken bookings ev.id : Int)))

/-- The database, as lists of rows, plus the next fresh primary key. -/
structure AppState where
  halls : List Hall
  events : List Event
  bookings : List Booking
  nextId : Nat
  deriving DecidableEq

def find_hall (halls : List Hall) (hid : Nat) : Option Hall :=
  halls.find? (fun h => h.id == hid)

def find_event (events : List Event) (eid : Nat) : Option Event :=
  events.find? (fun e => e.id == eid)

def find_booking (bookings : List Booking) (bid : Nat) : Option Booking :=
  bookings.find? (fun b => b.id == bid)

/-- The overlap query inlined twice in the source (event creation and
admin approval): an approved event in the same hall with
`start_time < end` and `end_time > start`, excluding the given event id
when one is supplied. -/
def has_conflict (events : List Event) (hall_id : Nat) (s e : Int)
    (exclude : Option Nat) : Bool :=
  events.any (fun ev =>
    ev.hall_id == hall_id && ev.status == "approved" &&
    decide (ev.start_time < e) && decide (ev.end_time > s) &&
    (match exclude with
     | some x => ev.id != x
     | none => true))

/-- Outcomes of the `create_event` route, in the order the source checks
them. -/
inductive CreateResult where
  | missingFields
  | invalidDates
  | invalidHall
  | hallBlocked
  | timeConflict
  | created (event_id : Nat)
  deriving DecidableEq

/-- `create_event`: reject on missing title, `start >= end`, unknown
hall, blocked hall, or an overlap with an approved event in the hall;
otherwise insert the event with status `"approved"` and
`requires_faculty_approval` hardcoded to `true` (the submitted
`requires_faculty` form value is read but never used). -/
def create_event (st : AppState) (organizer_id : Nat) (title : String)
    (hall_id : Nat) (capacity : Int) (start_time end_time : Int)
    (requires_faculty : Bool) : CreateResult × AppState :=
  if title == "" then (.missingFields, st)
  else if start_time ≥ end_time then (.invalidDates, st)
  else
    match find_hall st.halls hall_id with
    | none => (.invalidHall, st)
    | some hall =>
      if hall.status == "blocked" then (.hallBlocked, st)
      else if has_conflict st.events hall_id start_time end_time none then
        (.timeConflict, st)
      else
        let ev : Event :=
          { id := st.nextId, hall_id := hall_id, organizer_id := organizer_id,
            capacity := some capacity, start_time := start_time,
            end_time := end_time, status := "approved",
            requires_faculty_approval := true }
        (.created ev.id,
         { st with events := st.events ++ [ev], nextId := st.nextId + 1 })

/-- Outcomes of the `book_event` route. -/
inductive BookResult where
  | roleNotAllowed
  | eventNotOpen
  | soldOut
  | alreadyBooked (booking_id : Nat)
  | booked (booking_id : Nat)
  deriving DecidableEq

def role_allowed (r : String) : Bool :=
  r == "student" || r == "faculty" || r == "organizer" || r == "admin"

/-- `book_event`, with the source's check order: 404 on unknown event,
role gate, event-open gate (`approved` or admin requester), sold-out
gate (`avail is not None and avail <= 0`), idempotent return of an
existing non-cancelled booking for the (user, event) pair, then insert
a `pending` booking with both approval flags false, auto-set
`organizer_approved` when the event skips faculty approval and the
requester is an organizer or admin, and attempt finalization. -/
def book_event (env : ArtifactEnv) (st : AppState) (u : User) (event_id : Nat) :
    Option (BookResult × AppState) :=
  match find_event st.events event_id with
  | none => none
  | some ev =>
    if !(role_allowed u.role) then some (.roleNotAllowed, st)
    else if ev.status != "approved" && u.role != "admin" then
      some (.eventNotOpen, st)
    else
      let avail := seats_available st.bookings ev (find_hall st.halls ev.hall_id)
      if (match avail with | some a => decide (a ≤ 0) | none => false) then
        some (.soldOut, st)
      else
        match st.bookings.find? (fun b =>
            b.user_id == u.id && b.event_id == event_id && b.status != "cancelled") with
        | some existing => some (.alreadyBooked existing.id, st)
        | none =>
          let b0 : Booking :=
            { id := st.nextId, ticket_id := toString st.nextId,
              user_id := u.id, event_id := event_id, status := "pending",
              faculty_approved := false, organizer_approved := false,
              qr_path := none, pdf_path := none }
          let b1 : Booking :=
            if !ev.requires_faculty_approval &&
               (u.role == "organizer" || u.role == "admin") then
              { b0 with organizer_approved := true }
            else b0
          let b2 := (finalize_booking_if_ready env u.email b1).1
          some (.booked b2.id,
                { st with bookings := st.bookings ++ [b2],
                          nextId := st.nextId + 1 })

/-- Outcomes of the `cancel_booking` route. -/
inductive CancelResult where
  | notFound
  | forbidden
  | ok
  deriving DecidableEq

/-- `cancel_booking`: 404 on unknown booking, 403 unless the requester
owns the booking or is an admin, otherwise set the status to
`"cancelled"` unconditionally (no check of the current status). -/
def cancel_booking (bookings : List Booking) (u : User) (booking_id : Nat) :
    CancelResult × List Booking :=
  match find_booking bookings booking_id with
  | none => (.notFound, bookings)
  | some b =>
    if b.user_id != u.id && u.role != "admin" then (.forbidden, bookings)
    else
      (.ok, bookings.map (fun x =>
        if x.id == booking_id then { x with status := "cancelled" } else x))

/-! Concrete fixtures used by counterexamples and witnesses. -/

/-- A collaborator environment where every artifact generator succeeds
and mail is configured. -/
def envA : ArtifactEnv :=
  { qrcodeAvailable := true, qrResult := some "qr.png",
    pdfResult := some "ticket.pdf", mailConfigured := true }

/-- A free hall with capacity 5. -/
def hallA : Hall := { id := 1, capacity := some 5, status := "free" }

/-- A free hall with capacity 1. -/
def hallTight : Hall := { id := 1, capacity := some 1, status := "free" }

/-- An approved event that does not require faculty approval. -/
def evSkip : Event :=
  { id := 1, hall_id := 1, organizer_id := 2, capacity := some 5,
    start_time := 0, end_time := 10, status := "approved",
    requires_faculty_approval := false }

/-- An approved capacity-1 event that requires faculty approval. -/
def evCap1 : Event :=
  { id := 1, hall_id := 1, organizer_id := 2, capacity := some 1,
    start_time := 0, end_time := 10, status := "approved",
    requires_faculty_approval := true }

/-- An approved capacity-5 event that requires faculty approval. -/
def evCap5 : Event :=
  { id := 1, hall_id := 1, organizer_id := 2, capacity := some 5,
    start_time := 0, end_time := 10, status := "approved",
    requires_faculty_approval := true }

/-- A student account. -/
def uStudent : User :=
  { id := 3, email := some "s@example.com", role := "student", active := true }

/-- A pending booking that already carries organizer approval but not
faculty approval. -/
def bPendingOrg : Booking :=
  { id := 1, ticket_id := "t1", user_id := 3, event_id := 1,
    status := "pending", faculty_approved := false,
    organizer_approved := true, qr_path := none, pdf_path := none }

/-- A confirmed booking with populated artifact handles. -/
def bConfirmed : Booking :=
  { id := 2, ticket_id := "t2", user_id := 3, event_id := 1,
    status := "confirmed", faculty_approved := true,
    organizer_approved := true, qr_path := some "q0", pdf_path := some "p0" }

/-- A confirmed booking by user 3 on event 1, with no artifacts. -/
def bConfirmedCap : Booking :=
  { id := 1, ticket_id := "t1", user_id := 3, event_id := 1,
    status := "confirmed", faculty_approved := true,
    organizer_approved := true, qr_path := none, pdf_path := none }

/-- A pending, unapproved booking by user 3 on event 1. -/
def bPendingU3 : Booking :=
  { id := 1, ticket_id := "t1", user_id := 3, event_id := 1,
    status := "pending", faculty_approved := false,
    organizer_approved := false, qr_path := none, pdf_path := none }

/-- A state where event 1 (capacity 1) is sold out by user 3's own
confirmed booking. -/
def stSold : AppState :=
  { halls := [hallTight], events := [evCap1], bookings := [bConfirmedCap],
    nextId := 2 }

/-- A state where user 3 holds a pending booking on event 1 and seats
remain. -/
def stPend : AppState :=
  { halls := [hallA], events := [evCap5], bookings := [bPendingU3],
    nextId := 2 }

/-- A state with one free hall and no events or bookings. -/
def stEmpty : AppState :=
  { halls := [hallA], events := [], bookings := [], nextId := 1 }

/-- The state reached from `stEmpty` by a successful event creation. -/
def stCreatedDemo : AppState :=
  { halls := [hallA],
    events := [{ id := 1, hall_id := 1, organizer_id := 2,
                 capacity := some 0, start_time := 0, end_time := 10,
                 status := "approved", requires_faculty_approval := true }],
    bookings := [], nextId := 2 }

/-- A state with the open capacity-5 event and no bookings yet. -/
def stOpen : AppState :=
  { halls := [hallA], events := [evCap5], bookings := [], nextId := 1 }

/-- The booking row `book_event` inserts for user 3 from `stOpen`. -/
def bNew1 : Booking :=
  { id := 1, ticket_id := "1", user_id := 3, event_id := 1,
    status := "pending", faculty_approved := false,
    organizer_approved := false, qr_path := none, pdf_path := none }

/-- The state reached from `stOpen` after user 3 books event 1. -/
def stBooked : AppState :=
  { halls := [hallA], events := [evCap5], bookings := [bNew1], nextId := 2 }

/-! Theorems. -/

/-- Claim C1: the spec's faculty-skip path says a booking on an event
with `requires_faculty_approval = false` confirms on
`organizer_approved = true` alone.  The finalization check in the code
tests `faculty_approved && organizer_approved` without ever consulting
the event's flag, so at the concrete faculty-skip input (pending
booking, organizer approved, faculty not approved, event with the flag
false) the booking stays `pending` and is returned untouched —
contradicting the code's own comment that such a booking should
"finalize immediately". -/
theorem finalize_ignores_faculty_skip_config :
    evSkip.requires_faculty_approval = false ∧
    bPendingOrg.event_id = evSkip.id ∧
    bPendingOrg.organizer_approved = true ∧
    bPendingOrg.faculty_approved = false ∧
    bPendingOrg.status = "pending" ∧
    finalize_booking_if_ready envA (some "s@example.com") bPendingOrg =
      (bPendingOrg, false) := by
  decide

/-- Claim C2: invoking the finalization check on an already-confirmed
booking is a no-op — the booking (including its artifact fields) is
returned unchanged and no ticket email is sent, whatever the approval
flags and the collaborator environment. -/
theorem finalize_confirmed_is_noop (env : ArtifactEnv) (email : Option String)
    (b : Booking) (h : b.status = "confirmed") :
    finalize_booking_if_ready env email b = (b, false) := by
  simp [finalize_booking_if_ready, h]

/-- Witness for C2: the no-op on a concrete confirmed booking. -/
theorem finalize_confirmed_is_noop_witness :
    bConfirmed.status = "confirmed" ∧
    finalize_booking_if_ready envA (some "s@example.com") bConfirmed =
      (bConfirmed, false) :=
  ⟨rfl, finalize_confirmed_is_noop envA (some "s@example.com") bConfirmed rfl⟩

/-- Counterexample to claim C7: `cancel_booking` never checks the
current status, so the owner cancelling a `confirmed` booking moves it
to `cancelled` — `confirmed` is not terminal under cancellation. -/
theorem cancel_confirmed_counterexample :
    bConfirmedCap.status = "confirmed" ∧
    bConfirmedCap.user_id = uStudent.id ∧
    cancel_booking [bConfirmedCap] uStudent 1 =
      (.ok, [{ bConfirmedCap with status := "cancelled" }]) := by
  decide

/-- Claim C7 as amended: `cancel_booking` sets the status of the target
booking to `cancelled` for any authorized requester (owner or admin)
regardless of the booking's current status — in particular `cancelled`
is reachable from `confirmed` as well as from `pending`. -/
theorem cancel_booking_cancels_any_status (bookings : List Booking) (u : User)
    (b : Booking) (hfind : find_booking bookings b.id = some b)
    (hauth : b.user_id = u.id ∨ u.role = "admin") :
    (cancel_booking bookings u b.id).1 = .ok ∧
    ∀ x, x ∈ (cancel_booking bookings u b.id).2 → x.id = b.id →
      x.status = "cancelled" := by
  have hcond : (b.user_id != u.id && u.role != "admin") = false := by
    rcases hauth with h | h <;> simp [h]
  rw [cancel_booking, hfind]
  simp only [hcond, Bool.false_eq_true, if_false]
  refine ⟨by trivial, ?_⟩
  intro x hx hid
  simp only [List.mem_map] at hx
  obtain ⟨y, _, hy⟩ := hx
  by_cases hyid : y.id = b.id
  · simp [hyid] at hy
    rw [← hy]
  · simp [hyid] at hy
    rw [← hy] at hid
    exact absurd hid hyid

/-- Witness for amended C7: cancelling the concrete confirmed booking
leaves every row with its id in status `cancelled`. -/
theorem cancel_booking_cancels_any_status_witness :
    (cancel_booking [bConfirmedCap] uStudent bConfirmedCap.id).1 = .ok ∧
    ∀ x, x ∈ (cancel_booking [bConfirmedCap] uStudent bConfirmedCap.id).2 →
      x.id = bConfirmedCap.id → x.status = "cancelled" :=
  cancel_booking_cancels_any_status [bConfirmedCap] uStudent bConfirmedCap
    (by decide) (Or.inl rfl)

/-- Claim C10: `create_event` stores `requires_faculty_approval = true`
no matter what was submitted: the result does not depend on the
`requires_faculty` argument at all, and every successfully created
event row carries the flag set to `true`. -/
theorem create_event_forces_faculty_true :
    (∀ st oid title hid cap s e,
      create_event st oid title hid cap s e true =
        create_event st oid title hid cap s e false) ∧
    (∀ st oid title hid cap s e rf bid st2,
      create_event st oid title hid cap s e rf = (.created bid, st2) →
      bid = st.nextId ∧
      st2.events = st.events ++
        [{ id := st.nextId, hall_id := hid, organizer_id := oid,
           capacity := some cap, start_time := s, end_time := e,
           status := "approved", requires_faculty_approval := true }]) := by
  constructor
  · intro st oid title hid cap s e
    rfl
  · intro st oid title hid cap s e rf bid st2 h
    rw [create_event] at h
    split at h
    · simp at h
    · split at h
      · simp at h
      · split at h
        · simp at h
        · split at h
          · simp at h
          · split at h
            · simp at h
            · simp only [Prod.mk.injEq, CreateResult.created.injEq] at h
              obtain ⟨h1, h2⟩ := h
              exact ⟨h1.symm, by rw [← h2]⟩

/-- Helper: when the event's own capacity is set and positive it is the
effective capacity. -/
theorem seats_available_event_cap (bookings : List Booking) (ev : Event)
    (hall : Option Hall) (c : Int) (hcap : ev.capacity = some c)
    (hpos : 0 < c) :
    seats_available bookings ev hall =
      some (max 0 (c - (seats_taken bookings ev.id : Int))) := by
  simp [seats_available, hcap, hpos]

/-- Helper: when the event capacity is unset or non-positive and the
hall capacity is set and positive, the hall capacity is effective. -/
theorem seats_available_hall_cap (bookings : List Booking) (ev : Event)
    (h : Hall) (c : Int) (hev : ∀ c2, ev.capacity = some c2 → c2 ≤ 0)
    (hhc : h.capacity = some c) (hpos : 0 < c) :
    seats_available bookings ev (some h) =
      some (max 0 (c - (seats_taken bookings ev.id : Int))) := by
  rcases hcap : ev.capacity with _ | c2
  · simp [seats_available, hcap, hhc, hpos]
  · have hle : c2 ≤ 0 := hev c2 hcap
    have hneg : ¬ (0 < c2) := by omega
    simp [seats_available, hcap, hhc, hpos, hneg]

/-- Helper: when neither capacity is set and positive the result is the
unbounded sentinel. -/
theorem seats_available_none_of (bookings : List Booking) (ev : Event)
    (hall : Option Hall) (h1 : ∀ c, ev.capacity = some c → c ≤ 0)
    (h2 : ∀ h c, hall = some h → h.capacity = some c → c ≤ 0) :
    seats_available bookings ev hall = none := by
  rcases hcap : ev.capacity with _ | c
  · rcases hh : hall with _ | h
    · simp [seats_available, hcap, hh]
    · rcases hhc : h.capacity with _ | c
      · simp [seats_available, hcap, hh, hhc]
      · have hle := h2 h c hh hhc
        have hneg : ¬ (0 < c) := by omega
        simp [seats_available, hcap, hh, hhc, hneg]
  · have hle := h1 c hcap
    have hneg : ¬ (0 < c) := by omega
    rcases hh : hall with _ | h
    · simp [seats_available, hcap, hh, hneg]
    · rcases hhc : h.capacity with _ | c2
      · simp [seats_available, hcap, hh, hhc, hneg]
      · have hle2 := h2 h c2 hh hhc
        have hneg2 : ¬ (0 < c2) := by omega
        simp [seats_available, hcap, hh, hhc, hneg, hneg2]

/-- Helper: the unbounded (no-limit) result occurs exactly when neither
capacity is set and positive. -/
theorem seats_available_unbounded_iff (bookings : List Booking) (ev : Event)
    (hall : Option Hall) :
    seats_available bookings ev hall = none ↔
      ((∀ c, ev.capacity = some c → c ≤ 0) ∧
       (∀ h c, hall = some h → h.capacity = some c → c ≤ 0)) := by
  constructor
  · intro hnone
    refine ⟨?_, ?_⟩
    · intro c hcap
      by_contra hgt
      have hpos : 0 < c := by omega
      rw [seats_available_event_cap bookings ev hall c hcap hpos] at hnone
      cases hnone
    · intro h c hh hhc
      by_contra hgt
      have hpos : 0 < c := by omega
      rcases hcap : ev.capacity with _ | c2
      · subst hh
        rw [seats_available_hall_cap bookings ev h c
          (by intro c2 hc2; rw [hcap] at hc2; cases hc2) hhc hpos] at hnone
        cases hnone
      · by_cases hpos2 : 0 < c2
        · rw [seats_available_event_cap bookings ev hall c2 hcap hpos2] at hnone
          cases hnone
        · subst hh
          rw [seats_available_hall_cap bookings ev h c
            (by intro c3 hc3; rw [hcap] at hc3;
                injection hc3 with hc4; omega) hhc hpos] at hnone
          cases hnone
  · intro hboth
    exact seats_available_none_of bookings ev hall hboth.1 hboth.2

/-- Claim C3: `seats_available` is unbounded (`none`) exactly when
neither the event's own capacity nor its hall's capacity is set and
positive; otherwise it is `max 0 (effective capacity - confirmed
bookings)`, with the event's capacity taking precedence; and a bounded
result is never negative. -/
theorem seats_available_spec (bookings : List Booking) (ev : Event)
    (hall : Option Hall) :
    (seats_available bookings ev hall = none ↔
      ((∀ c, ev.capacity = some c → c ≤ 0) ∧
       (∀ h c, hall = some h → h.capacity = some c → c ≤ 0))) ∧
    (∀ c, ev.capacity = some c → 0 < c →
      seats_available bookings ev hall =
        some (max 0 (c - (seats_taken bookings ev.id : Int)))) ∧
    (∀ h c, (∀ c2, ev.capacity = some c2 → c2 ≤ 0) → hall = some h →
      h.capacity = some c → 0 < c →
      seats_available bookings ev hall =
        some (max 0 (c - (seats_taken bookings ev.id : Int)))) ∧
    (∀ n, seats_available bookings ev hall = some n → 0 ≤ n) := by
  refine ⟨seats_available_unbounded_iff bookings ev hall, ?_, ?_, ?_⟩
  · intro c hcap hpos
    exact seats_available_event_cap bookings ev hall c hcap hpos
  · intro h c hev hh hhc hpos
    subst hh
    exact seats_available_hall_cap bookings ev h c hev hhc hpos
  · intro n hn
    simp only [seats_available] at hn
    split at hn
    · exact absurd hn (by simp)
    · have hmax := Option.some.inj hn
      rw [← hmax]
      exact le_max_left 0 _

/-- Witness for C3: on the concrete sold-out state the event capacity 1
is effective and the bounded result is non-negative. -/
theorem seats_available_spec_witness :
    seats_available [bConfirmedCap] evCap1 (some hallTight) =
      some (max 0 ((1 : Int) - (seats_taken [bConfirmedCap] evCap1.id : Int))) ∧
    (0 : Int) ≤ 0 :=
  ⟨(seats_available_spec [bConfirmedCap] evCap1 (some hallTight)).2.1 1 rfl
     (by decide),
   (seats_available_spec [bConfirmedCap] evCap1 (some hallTight)).2.2.2 0
     (by decide)⟩

/-- Claim C5: the overlap query reports a conflict exactly when some
stored event is approved, sits in the same hall, satisfies
`start < end' AND end > start'` (half-open overlap), and is not the
excluded event; and a back-to-back event (its end equal to the queried
start, or its start equal to the queried end) on its own never
conflicts. -/
theorem has_conflict_iff (events : List Event) (hall_id : Nat) (s e : Int)
    (exclude : Option Nat) :
    (has_conflict events hall_id s e exclude = true ↔
      ∃ ev, ev ∈ events ∧ ev.hall_id = hall_id ∧ ev.status = "approved" ∧
        ev.start_time < e ∧ ev.end_time > s ∧
        ∀ x, exclude = some x → ev.id ≠ x) ∧
    (∀ ev, ev.end_time = s ∨ ev.start_time = e →
      has_conflict [ev] hall_id s e exclude = false) := by
  constructor
  · rw [has_conflict, List.any_eq_true]
    cases exclude
    · simp
      exact exists_congr fun ev => and_congr_right fun _ => by tauto
    · simp
      exact exists_congr fun ev => and_congr_right fun _ => by tauto
  · intro ev hbt
    rcases hbt with h | h <;> simp [has_conflict, h]

/-- Witness for C5: a touching event does not conflict, while a
genuinely overlapping approved event does. -/
theorem has_conflict_iff_witness :
    has_conflict [evSkip] 1 10 20 none = false ∧
    has_conflict [evCap1] 1 5 20 none = true :=
  ⟨(has_conflict_iff [evSkip] 1 10 20 none).2 evSkip (Or.inl rfl),
   (has_conflict_iff [evCap1] 1 5 20 none).1.mpr
     ⟨evCap1, by simp, rfl, rfl, by decide, by decide,
      by intro x hx; cases hx⟩⟩

/-- Witness for C10: a concrete successful creation that submitted
`requires_faculty = false` still yields an event with the flag `true`,
and the outcome is identical to submitting `true`. -/
theorem create_event_forces_faculty_true_witness :
    (create_event stEmpty 2 "Fest" 1 0 0 10 true =
      create_event stEmpty 2 "Fest" 1 0 0 10 false) ∧
    (1 = stEmpty.nextId ∧
      stCreatedDemo.events = stEmpty.events ++
        [{ id := stEmpty.nextId, hall_id := 1, organizer_id := 2,
           capacity := some 0, start_time := 0, end_time := 10,
           status := "approved", requires_faculty_approval := true }]) :=
  ⟨create_event_forces_faculty_true.1 stEmpty 2 "Fest" 1 0 0 10,
   create_event_forces_faculty_true.2 stEmpty 2 "Fest" 1 0 0 10 false 1
     stCreatedDemo (by decide)⟩

/-- Claim C4: booking against a sold-out event (`seats_available` is a
bounded 0) never inserts a row — the state is returned unchanged — and,
whenever the request passes the preceding role and event-open gates,
the reported failure is specifically the sold-out conflict. -/
theorem book_event_sold_out_rejects (env : ArtifactEnv) (st : AppState)
    (u : User) (eid : Nat) (ev : Event)
    (hev : find_event st.events eid = some ev)
    (hav : seats_available st.bookings ev (find_hall st.halls ev.hall_id) =
      some 0) :
    (∃ r, book_event env st u eid = some (r, st)) ∧
    ((u.role = "student" ∨ u.role = "faculty" ∨ u.role = "organizer" ∨
        u.role = "admin") →
      (ev.status = "approved" ∨ u.role = "admin") →
      book_event env st u eid = some (.soldOut, st)) := by
  constructor
  · cases hr : role_allowed u.role with
    | false =>
      exact ⟨.roleNotAllowed, by simp only [book_event, hev]; simp [hr]⟩
    | true =>
      cases ho : (ev.status != "approved" && u.role != "admin") with
      | true =>
        exact ⟨.eventNotOpen, by simp only [book_event, hev]; simp [hr, ho]⟩
      | false =>
        exact ⟨.soldOut, by simp only [book_event, hev]; simp [hr, ho, hav]⟩
  · intro hrole hopen
    have hr : role_allowed u.role = true := by
      rcases hrole with h | h | h | h <;> simp [role_allowed, h]
    have ho : (ev.status != "approved" && u.role != "admin") = false := by
      rcases hopen with h | h <;> simp [h]
    simp only [book_event, hev]
    simp [hr, ho, hav]

/-- Witness for C4: the concrete sold-out state rejects a student's
booking attempt with the sold-out conflict and an unchanged state. -/
theorem book_event_sold_out_rejects_witness :
    book_event envA stSold uStudent 1 = some (.soldOut, stSold) :=
  (book_event_sold_out_rejects envA stSold uStudent 1 evCap1 (by decide)
    (by decide)).2 (Or.inl rfl) (Or.inl rfl)

/-- Counterexample to claim C6: user 3 already holds a non-cancelled
(confirmed) booking on event 1, yet a repeated booking call returns the
sold-out conflict instead of the existing booking's identity, because
the sold-out gate runs before the idempotency lookup. -/
theorem book_event_rebooking_sold_out_counterexample :
    bConfirmedCap.user_id = uStudent.id ∧
    bConfirmedCap.event_id = 1 ∧
    bConfirmedCap.status ≠ "cancelled" ∧
    bConfirmedCap ∈ stSold.bookings ∧
    book_event envA stSold uStudent 1 = some (.soldOut, stSold) ∧
    BookResult.soldOut ≠ BookResult.alreadyBooked bConfirmedCap.id := by
  decide

/-- Claim C6 as amended: when a non-cancelled booking already exists for
the (requester, event) pair AND the request passes the preceding gates
(allowed role, event approved or admin requester, seats unbounded or
positive), the booking call is a no-op returning the existing booking's
identity with the state unchanged. -/
theorem book_event_idempotent_rebooking (env : ArtifactEnv) (st : AppState)
    (u : User) (eid : Nat) (ev : Event) (existing : Booking)
    (hev : find_event st.events eid = some ev)
    (hrole : u.role = "student" ∨ u.role = "faculty" ∨ u.role = "organizer" ∨
      u.role = "admin")
    (hopen : ev.status = "approved" ∨ u.role = "admin")
    (hav : ∀ a, seats_available st.bookings ev (find_hall st.halls ev.hall_id) =
      some a → 0 < a)
    (hex : st.bookings.find? (fun b =>
        b.user_id == u.id && b.event_id == eid && b.status != "cancelled") =
      some existing) :
    book_event env st u eid = some (.alreadyBooked existing.id, st) := by
  have hr : role_allowed u.role = true := by
    rcases hrole with h | h | h | h <;> simp [role_allowed, h]
  have ho : (ev.status != "approved" && u.role != "admin") = false := by
    rcases hopen with h | h <;> simp [h]
  simp only [book_event, hev]
  rcases havv : seats_available st.bookings ev (find_hall st.halls ev.hall_id)
    with _ | a
  · simp [hr, ho, havv, hex]
  · have hpos := hav a havv
    have hdec : decide (a ≤ 0) = false := by simp; omega
    simp [hr, ho, havv, hdec, hex]

/-- Witness for amended C6: rebooking while a pending booking exists and
seats remain returns the existing booking id 1 and leaves the state
unchanged. -/
theorem book_event_idempotent_rebooking_witness :
    book_event envA stPend uStudent 1 = some (.alreadyBooked 1, stPend) :=
  book_event_idempotent_rebooking envA stPend uStudent 1 evCap5 bPendingU3
    (by decide) (Or.inl rfl) (Or.inl rfl)
    (by
      intro a ha
      have h5 : seats_available stPend.bookings evCap5
          (find_hall stPend.halls evCap5.hall_id) = some 5 := by decide
      rw [h5] at ha
      have h6 := Option.some.inj ha
      omega)
    (by decide)

/-- Claim C9: a successful fresh booking inserts exactly one row, whose
`faculty_approved` is false and whose `organizer_approved` is true
exactly when the event does not require faculty approval and the
creator's role is organizer or admin. -/
theorem book_event_creation_flags (env : ArtifactEnv) (st : AppState)
    (u : User) (eid : Nat) (ev : Event) (bid : Nat) (st2 : AppState)
    (hev : find_event st.events eid = some ev)
    (hres : book_event env st u eid = some (.booked bid, st2)) :
    st2.bookings = st.bookings ++
      [{ id := st.nextId, ticket_id := toString st.nextId, user_id := u.id,
         event_id := eid, status := "pending", faculty_approved := false,
         organizer_approved := !ev.requires_faculty_approval &&
           (u.role == "organizer" || u.role == "admin"),
         qr_path := none, pdf_path := none }] ∧
    ((!ev.requires_faculty_approval &&
        (u.role == "organizer" || u.role == "admin")) = true ↔
      (ev.requires_faculty_approval = false ∧
        (u.role = "organizer" ∨ u.role = "admin"))) := by
  have hiff : ((!ev.requires_faculty_approval &&
      (u.role == "organizer" || u.role == "admin")) = true ↔
      (ev.requires_faculty_approval = false ∧
        (u.role = "organizer" ∨ u.role = "admin"))) := by
    simp
  refine ⟨?_, hiff⟩
  simp only [book_event, hev] at hres
  split at hres
  · simp at hres
  · split at hres
    · simp at hres
    · split at hres
      · simp at hres
      · split at hres
        · simp at hres
        · cases hcond : (!ev.requires_faculty_approval &&
            (u.role == "organizer" || u.role == "admin")) with
          | true =>
            simp only [hcond, finalize_booking_if_ready] at hres
            simp at hres
            obtain ⟨hbid, hst⟩ := hres
            rw [← hst]
          | false =>
            simp only [hcond, finalize_booking_if_ready] at hres
            simp at hres
            obtain ⟨hbid, hst⟩ := hres
            rw [← hst]

/-- Witness for C9: a concrete student booking on a
faculty-approval-required event creates a row with both flags false. -/
theorem book_event_creation_flags_witness :
    stBooked.bookings = stOpen.bookings ++
      [{ id := stOpen.nextId, ticket_id := toString stOpen.nextId,
         user_id := uStudent.id, event_id := 1, status := "pending",
         faculty_approved := false,
         organizer_approved := !evCap5.requires_faculty_approval &&
           (uStudent.role == "organizer" || uStudent.role == "admin"),
         qr_path := none, pdf_path := none }] ∧
    ((!evCap5.requires_faculty_approval &&
        (uStudent.role == "organizer" || uStudent.role == "admin")) = true ↔
      (evCap5.requires_faculty_approval = false ∧
        (uStudent.role = "organizer" ∨ uStudent.role = "admin"))) :=
  book_event_creation_flags envA stOpen uStudent 1 evCap5 1 stBooked
    (by decide) (by decide)

/-- Claim C8: with a non-empty title and an existing target hall, event
creation rejects bad dates (`start >= end`), a blocked hall, and an
overlap with an approved event in the hall, in that order; when all
checks pass the event is stored with status `"approved"`. -/
theorem create_event_admission (st : AppState) (oid : Nat) (title : String)
    (hid : Nat) (cap : Int) (s e : Int) (rf : Bool) (hall : Hall)
    (htitle : ¬ title = "")
    (hhall : find_hall st.halls hid = some hall) :
    (e ≤ s → create_event st oid title hid cap s e rf = (.invalidDates, st)) ∧
    (s < e → hall.status = "blocked" →
      create_event st oid title hid cap s e rf = (.hallBlocked, st)) ∧
    (s < e → ¬ hall.status = "blocked" →
      has_conflict st.events hid s e none = true →
      create_event st oid title hid cap s e rf = (.timeConflict, st)) ∧
    (s < e → ¬ hall.status = "blocked" →
      has_conflict st.events hid s e none = false →
      create_event st oid title hid cap s e rf =
        (.created st.nextId,
         { st with
             events := st.events ++
               [{ id := st.nextId, hall_id := hid, organizer_id := oid,
                  capacity := some cap, start_time := s, end_time := e,
                  status := "approved", requires_faculty_approval := true }],
             nextId := st.nextId + 1 })) := by
  have ht : (title == "") = false := beq_eq_false_iff_ne.mpr htitle
  refine ⟨?_, ?_, ?_, ?_⟩
  · intro hle
    simp [create_event, ht, hle]
  · intro hlt hst
    have hnge : ¬ s ≥ e := by omega
    have hb : (hall.status == "blocked") = true := beq_iff_eq.mpr hst
    simp [create_event, ht, hnge, hhall, hb]
  · intro hlt hst hc
    have hnge : ¬ s ≥ e := by omega
    have hb : (hall.status == "blocked") = false := beq_eq_false_iff_ne.mpr hst
    simp [create_event, ht, hnge, hhall, hb, hc]
  · intro hlt hst hc
    have hnge : ¬ s ≥ e := by omega
    have hb : (hall.status == "blocked") = false := beq_eq_false_iff_ne.mpr hst
    simp [create_event, ht, hnge, hhall, hb, hc]

/-- Witness for C8: on the concrete empty state, inverted dates are
rejected and a clean request is admitted directly as approved. -/
theorem create_event_admission_witness :
    create_event stEmpty 2 "Fest" 1 0 10 5 false = (.invalidDates, stEmpty) ∧
    create_event stEmpty 2 "Fest" 1 0 0 10 false =
      (.created stEmpty.nextId,
       { stEmpty with
           events := stEmpty.events ++
             [{ id := stEmpty.nextId, hall_id := 1, organizer_id := 2,
                capacity := some 0, start_time := 0, end_time := 10,
                status := "approved", requires_faculty_approval := true }],
           nextId := stEmpty.nextId + 1 }) :=
  ⟨(create_event_admission stEmpty 2 "Fest" 1 0 10 5 false hallA (by decide)
      (by decide)).1 (by omega),
   (create_event_admission stEmpty 2 "Fest" 1 0 0 10 false hallA (by decide)
      (by decide)).2.2.2 (by omega) (by decide) (by decide)⟩

end CEMS
